import Mathlib

/-
Verification of the events feature of the level-up application
(levelupapi/views/event.py): a CRUD request-handling layer over a
relational store, plus a signup/leave custom action and serializers.

The embedding models the relational store as lists of rows, the ORM's
`Model.objects.get(...)` as a lookup that returns the unique matching row
or raises `DoesNotExist` / `MultipleObjectsReturned`, request bodies as
records of optional fields (`request.data["k"]` raises `KeyError` when the
key is absent), and each view method of `EventView` as a function from the
store and the request to either a `Response` (paired with the updated
store, when the handler writes) or an uncaught Python exception (`Except`'s
error case).  Store-side failures that the handlers guard against — a
`ValidationError` raised by `event.save()`, a failure raised by the
many-to-many `add`/`remove`, a failure during `delete()` — are modelled as
explicit `Option String` parameters giving the store's outcome for that
single operation (`none` = the operation succeeds).
-/

set_option autoImplicit false

namespace LevelUp

/-- A Django `User` row: the identity fields exposed by `EventUserSerializer`. -/
structure User where
  id : Nat
  first_name : String
  last_name : String
  email : String
  deriving Repr, DecidableEq

/-- A `Gamer` row: wraps a `User` identity (`user` is the foreign key). -/
structure Gamer where
  id : Nat
  user : Nat
  deriving Repr, DecidableEq

/-- A `Game` row, with the fields named by `GameSerializer`
(`created_by` and `gametype` are foreign keys, serialized as their pks). -/
structure Game where
  id : Nat
  name : String
  player_limit : Nat
  created_by : Nat
  gametype : Nat
  deriving Repr, DecidableEq

/-- A `Status` row: enumerated lifecycle label for an `Event`. -/
structure Status where
  id : Nat
  title : String
  deriving Repr, DecidableEq

/-- An `Event` row.  `host`, `game`, `status` are foreign keys.  `joined` is
the per-request in-memory attribute set by `EventView.list` on the fetched
instances; it is not a persisted column (`none` = never assigned). -/
structure Event where
  id : Nat
  name : String
  time : String
  host : Nat
  game : Nat
  status : Nat
  joined : Option Bool
  deriving Repr, DecidableEq

/-- The relational store.  `signups` is the many-to-many join table behind
`Event.signed_up_by`: a row `(e, g)` signs Gamer `g` up for Event `e`. -/
structure DB where
  users : List User
  gamers : List Gamer
  games : List Game
  statuses : List Status
  events : List Event
  signups : List (Nat × Nat)
  deriving Repr, DecidableEq

/-- Python exceptions the handlers can raise or translate. -/
inductive Exn where
  | doesNotExist (model : String)
  | multipleObjectsReturned (model : String)
  | validationError (reason : String)
  | attributeError (attr : String)
  | keyError (key : String)
  | opError (msg : String)
  deriving Repr, DecidableEq

/-- The text `str(ex)` / `ex.args[0]` of each modelled exception. -/
def exnStr : Exn → String
  | .doesNotExist m => m ++ " matching query does not exist."
  | .multipleObjectsReturned m => "get() returned more than one " ++ m
  | .validationError r => r
  | .attributeError a => "object has no attribute " ++ a
  | .keyError k => k
  | .opError m => m

/-- The ORM lookup `Model.objects.get(...)` applied to the matching rows:
the unique match, else `DoesNotExist` / `MultipleObjectsReturned`. -/
def objectsGet {α : Type} (model : String) (rows : List α) : Except Exn α :=
  match rows with
  | [r] => .ok r
  | [] => .error (.doesNotExist model)
  | _ => .error (.multipleObjectsReturned model)

/-- Body access `request.data[key]`: the value when the body carries the key, else
`KeyError`. -/
def dataGet {α : Type} (v : Option α) (key : String) : Except Exn α :=
  match v with
  | some x => .ok x
  | none => .error (.keyError key)

/-- The request body, as the optional fields the handlers read.  `host` is
the extraneous host field a client may place in a create body; no handler
reads it. -/
structure RequestData where
  name : Option String
  time : Option String
  game_id : Option Nat
  gameId : Option Nat
  statusId : Option Nat
  host : Option Nat
  deriving Repr, DecidableEq

/-- The HTTP methods the `signup` action is registered for
(`@action(methods=['post', 'delete'], detail=True)`). -/
inductive Method where
  | post
  | delete
  deriving Repr, DecidableEq

/-- An inbound request: the authenticated identity (`request.auth.user`,
as its `User` pk), the body, the `gameId` query parameter (already coerced
to an integer as the ORM does for an integer column), and the method. -/
structure Request where
  authUserId : Nat
  data : RequestData
  queryGameId : Option Nat
  method : Method
  deriving Repr, DecidableEq

/-- The JSON shape of `StatusSerializer`. -/
structure StatusJson where
  id : Nat
  title : String
  deriving Repr, DecidableEq

/-- The JSON shape of `GameSerializer`. -/
structure GameJson where
  id : Nat
  name : String
  player_limit : Nat
  created_by : Nat
  gametype : Nat
  deriving Repr, DecidableEq

/-- The JSON shape of `EventUserSerializer`. -/
structure UserJson where
  first_name : String
  last_name : String
  email : String
  deriving Repr, DecidableEq

/-- The JSON shape of `EventGamerSerializer`: the nested user object. -/
structure GamerJson where
  user : UserJson
  deriving Repr, DecidableEq

/-- The JSON shape of `EventSerializer`:
`('id', 'game', 'host', 'name', 'time', 'status', 'joined')`. -/
structure EventJson where
  id : Nat
  game : GameJson
  host : GamerJson
  name : String
  time : String
  status : StatusJson
  joined : Option Bool
  deriving Repr, DecidableEq

/-- A response body. `emptyObj` is `Response({})`, `noBody` is
`Response(None)`, `errorText` is the raw body of `HttpResponseServerError`,
`message`/`reason` are the one-key JSON error bodies. -/
inductive Body where
  | emptyObj
  | noBody
  | event (j : EventJson)
  | events (js : List EventJson)
  | message (m : String)
  | reason (r : String)
  | errorText (s : String)
  deriving Repr, DecidableEq

/-- An HTTP response: status code and body. -/
structure Response where
  status : Nat
  body : Body
  deriving Repr, DecidableEq

/-- Serializer `EventSerializer` on one event instance: resolves the nested
`host → user`, `game` and `status` objects from the store and renders the
fields, `joined` included.  In Python the nested rows are reached through
live foreign-key objects; a missing row surfaces as the corresponding
lookup exception. -/
def EventSerializer (db : DB) (e : Event) : Except Exn EventJson :=
  match objectsGet "Gamer" (db.gamers.filter (fun g => g.id == e.host)) with
  | .error ex => .error ex
  | .ok hostGamer =>
  match objectsGet "User" (db.users.filter (fun u => u.id == hostGamer.user)) with
  | .error ex => .error ex
  | .ok u =>
  match objectsGet "Game" (db.games.filter (fun g => g.id == e.game)) with
  | .error ex => .error ex
  | .ok g =>
  match objectsGet "Status" (db.statuses.filter (fun s => s.id == e.status)) with
  | .error ex => .error ex
  | .ok st =>
    .ok { id := e.id,
          game := { id := g.id, name := g.name, player_limit := g.player_limit,
                    created_by := g.created_by, gametype := g.gametype },
          host := { user := { first_name := u.first_name, last_name := u.last_name,
                              email := u.email } },
          name := e.name, time := e.time,
          status := { id := st.id, title := st.title },
          joined := e.joined }

/-- The pk the store assigns to a freshly inserted `Event` row. -/
def freshId (es : List Event) : Nat :=
  (es.map (fun e => e.id)).foldr max 0 + 1

/-- Handler `EventView.create`.  Reads `name`, `time`, `game_id` from the body,
derives the host from the authenticated identity, fixes the status to the
row with pk 1, then — inside the only `try` — saves, serializes and
returns 201; a `ValidationError` raised by the save (`saveFail = some
reason`) is translated to 400 `{"reason": reason}`.  The lookups before the
`try` are unguarded: their exceptions escape as `.error`. -/
def create (db : DB) (req : Request) (saveFail : Option String) :
    Except Exn (Response × DB) :=
  match dataGet req.data.name "name" with
  | .error ex => .error ex
  | .ok name =>
  match dataGet req.data.time "time" with
  | .error ex => .error ex
  | .ok time =>
  match objectsGet "Gamer" (db.gamers.filter (fun g => g.user == req.authUserId)) with
  | .error ex => .error ex
  | .ok gamer =>
  match dataGet req.data.game_id "game_id" with
  | .error ex => .error ex
  | .ok gid =>
  match objectsGet "Game" (db.games.filter (fun g => g.id == gid)) with
  | .error ex => .error ex
  | .ok game =>
  match objectsGet "Status" (db.statuses.filter (fun s => s.id == 1)) with
  | .error ex => .error ex
  | .ok event_status =>
  match saveFail with
  | some reason => .ok (⟨400, .reason reason⟩, db)
  | none =>
    let saved : Event :=
      { id := freshId db.events, name := name, time := time,
        host := gamer.id, game := game.id, status := event_status.id,
        joined := none }
    let db' : DB := { db with events := db.events ++ [saved] }
    match EventSerializer db' saved with
    | .error ex => .error ex
    | .ok j => .ok (⟨201, .event j⟩, db')

/-- The body of `EventView.retrieve`'s `try` block: fetch the event by pk
and serialize it. -/
def retrieveBody (db : DB) (pk : Nat) : Except Exn EventJson :=
  match objectsGet "Event" (db.events.filter (fun e => e.id == pk)) with
  | .error ex => .error ex
  | .ok event => EventSerializer db event

/-- Handler `EventView.retrieve`.  On success, 200 with the serialized event; the
bare `except Exception` turns every exception into
`HttpResponseServerError(ex)`. -/
def retrieve (db : DB) (pk : Nat) : Response :=
  match retrieveBody db pk with
  | .ok j => ⟨200, .event j⟩
  | .error ex => ⟨500, .errorText (exnStr ex)⟩

/-- A Python value, for modelling dynamic attribute access. -/
inductive PyVal where
  | int (n : Nat)
  | str (s : String)
  deriving Repr, DecidableEq

/-- Python attribute access on a `Status` model row: the attributes that
exist are the model's fields `id` and `title`; any other name raises
`AttributeError`. -/
def statusAttr (s : Status) (a : String) : Except Exn PyVal :=
  if a = "id" then .ok (.int s.id)
  else if a = "title" then .ok (.str s.title)
  else .error (.attributeError a)

/-- An HTTP status-code argument must be an integer. -/
def asInt : PyVal → Except Exn Nat
  | .int n => .ok n
  | .str s => .error (.opError s)

/-- Handler `EventView.update`.  Fetches the event, overwrites its fields from the
body (host reset from the authenticated identity), saves, and then returns
`Response({}, status=status.HTTP_204_NO_CONTENT)` — where the local
assignment `status = Status.objects.get(pk=request.data["statusId"])` has
shadowed the imported `rest_framework.status` module, so the status-code
expression is an attribute access on the fetched `Status` row.  Nothing is
inside a `try`: every exception escapes as `.error`. -/
def update (db : DB) (req : Request) (pk : Nat) (saveFail : Option String) :
    Except Exn (Response × DB) :=
  match objectsGet "Event" (db.events.filter (fun e => e.id == pk)) with
  | .error ex => .error ex
  | .ok event =>
  match dataGet req.data.name "name" with
  | .error ex => .error ex
  | .ok name =>
  match dataGet req.data.time "time" with
  | .error ex => .error ex
  | .ok time =>
  match objectsGet "Gamer" (db.gamers.filter (fun g => g.user == req.authUserId)) with
  | .error ex => .error ex
  | .ok host =>
  match dataGet req.data.gameId "gameId" with
  | .error ex => .error ex
  | .ok gid =>
  match objectsGet "Game" (db.games.filter (fun g => g.id == gid)) with
  | .error ex => .error ex
  | .ok game =>
  match dataGet req.data.statusId "statusId" with
  | .error ex => .error ex
  | .ok sid =>
  match objectsGet "Status" (db.statuses.filter (fun s => s.id == sid)) with
  | .error ex => .error ex
  | .ok statusRow =>
  match saveFail with
  | some reason => .error (.validationError reason)
  | none =>
    let event' : Event :=
      { event with name := name, time := time, host := host.id,
                   game := game.id, status := statusRow.id }
    let db' : DB :=
      { db with events := db.events.map (fun x => if x.id == event'.id then event' else x) }
    match statusAttr statusRow "HTTP_204_NO_CONTENT" with
    | .error ex => .error ex
    | .ok v =>
    match asInt v with
    | .error ex => .error ex
    | .ok code => .ok (⟨code, .emptyObj⟩, db')

/-- The body of `EventView.destroy`'s `try` block: fetch the event by pk
and delete it (`deleteFail = some msg` models `delete()` raising). -/
def destroyBody (db : DB) (pk : Nat) (deleteFail : Option String) : Except Exn DB :=
  match objectsGet "Event" (db.events.filter (fun e => e.id == pk)) with
  | .error ex => .error ex
  | .ok event =>
    match deleteFail with
    | some msg => .error (.opError msg)
    | none => .ok { db with events := db.events.filter (fun e => !(e.id == event.id)) }

/-- Handler `EventView.destroy`.  204 `{}` on success; `Event.DoesNotExist` is
translated to 404 `{'message': ex.args[0]}`; any other exception to 500
`{'message': ex.args[0]}`. -/
def destroy (db : DB) (pk : Nat) (deleteFail : Option String) : Response × DB :=
  match destroyBody db pk deleteFail with
  | .ok db' => (⟨204, .emptyObj⟩, db')
  | .error (.doesNotExist m) => (⟨404, .message (exnStr (.doesNotExist m))⟩, db)
  | .error ex => (⟨500, .message (exnStr ex)⟩, db)

/-- Membership test `gamer in event.signed_up_by.all()`: is the gamer signed up for the
event in the join table? -/
def signedUpBy (db : DB) (eventId gamerId : Nat) : Bool :=
  decide ((eventId, gamerId) ∈ db.signups)

/-- Evaluating an Event queryset constructs fresh instances from the
persisted columns; `joined` is not a column, so it is unassigned on them. -/
def freshFetch (rows : List Event) : List Event :=
  rows.map (fun e => { e with joined := none })

/-- Serializing a queryset with `many=True`: each instance in order. -/
def serializeAll (db : DB) : List Event → Except Exn (List EventJson)
  | [] => .ok []
  | e :: es =>
    match EventSerializer db e with
    | .error ex => .error ex
    | .ok j =>
      match serializeAll db es with
      | .error ex => .error ex
      | .ok js => .ok (j :: js)

/-- Handler `EventView.list`.  Iterating `Event.objects.all()` evaluates the
queryset and caches its instances, and the loop sets `joined` on those
cached instances from the authenticated gamer's membership in the sign-up
set.  When no `gameId` query parameter is present, serializing `events`
reuses the cached, annotated instances.  When one is present,
`events.filter(game__id=game)` clones the queryset without the result
cache, so serializing it re-fetches fresh rows from the store — on which
the non-persisted `joined` attribute was never assigned — and the
annotations set by the loop are discarded. -/
def list (db : DB) (req : Request) : Except Exn Response :=
  match objectsGet "Gamer" (db.gamers.filter (fun g => g.user == req.authUserId)) with
  | .error ex => .error ex
  | .ok gamer =>
    let cached := (freshFetch db.events).map
      (fun e => { e with joined := some (signedUpBy db e.id gamer.id) })
    let toSerialize :=
      match req.queryGameId with
      | some gid => freshFetch (db.events.filter (fun e => e.game == gid))
      | none => cached
    match serializeAll db toSerialize with
    | .error ex => .error ex
    | .ok js => .ok ⟨200, .events js⟩

/-- Join-table insert `event.signed_up_by.add(gamer)`: inserts the row unless already
present. -/
def addSignup (signups : List (Nat × Nat)) (e g : Nat) : List (Nat × Nat) :=
  if (e, g) ∈ signups then signups else signups ++ [(e, g)]

/-- Handler `EventView.signup` (the action for POST/DELETE on the signup sub-path).
Resolves the gamer, then the event — only `Event.DoesNotExist` is caught,
as 400 `{'message': 'Event does not exist.'}`.  POST adds the gamer to the
sign-up set (201 `{}`), DELETE removes it (204, body `None`); a failure
raised by the add/remove (`m2mFail = some msg`) is returned as
`Response({'message': msg})`, whose status defaults to 200. -/
def signup (db : DB) (req : Request) (pk : Nat) (m2mFail : Option String) :
    Except Exn (Response × DB) :=
  match objectsGet "Gamer" (db.gamers.filter (fun g => g.user == req.authUserId)) with
  | .error ex => .error ex
  | .ok gamer =>
  match objectsGet "Event" (db.events.filter (fun e => e.id == pk)) with
  | .error (.doesNotExist _) => .ok (⟨400, .message "Event does not exist."⟩, db)
  | .error ex => .error ex
  | .ok event =>
    match req.method with
    | .post =>
      match m2mFail with
      | some msg => .ok (⟨200, .message msg⟩, db)
      | none => .ok (⟨201, .emptyObj⟩,
          { db with signups := addSignup db.signups event.id gamer.id })
    | .delete =>
      match m2mFail with
      | some msg => .ok (⟨200, .message msg⟩, db)
      | none => .ok (⟨204, .noBody⟩,
          { db with signups := db.signups.filter (fun p => !(p == (event.id, gamer.id))) })

/-
Concrete fixture rows, used by the witness theorems to evaluate the
handlers on a small populated store.
-/

/-- Fixture user. -/
def userW : User :=
  { id := 1, first_name := "Ann", last_name := "Lee", email := "ann@example.com" }

/-- Fixture gamer, wrapping `userW`. -/
def gamerW : Gamer := { id := 7, user := 1 }

/-- Fixture game. -/
def gameW : Game :=
  { id := 3, name := "Chess", player_limit := 2, created_by := 7, gametype := 1 }

/-- Fixture status row with pk 1. -/
def statusW : Status := { id := 1, title := "Open for signing up" }

/-- Fixture event, hosted by `gamerW` for `gameW`. -/
def eventW : Event :=
  { id := 5, name := "Trivia Night", time := "19:00", host := 7, game := 3,
    status := 1, joined := none }

/-- Fixture store holding one row of each kind and no signups. -/
def dbW : DB :=
  { users := [userW], gamers := [gamerW], games := [gameW],
    statuses := [statusW], events := [eventW], signups := [] }

/-- A create request by `userW`, with an extraneous `host` field in the
body. -/
def reqCreateW : Request :=
  { authUserId := 1,
    data := { name := some "Trivia Night", time := some "19:00",
              game_id := some 3, gameId := none, statusId := none,
              host := some 42 },
    queryGameId := none, method := .post }

/-- An update request by `userW` carrying the full replacement payload. -/
def reqUpdateW : Request :=
  { authUserId := 1,
    data := { name := some "Chess Night", time := some "20:00",
              game_id := none, gameId := some 3, statusId := some 1,
              host := none },
    queryGameId := none, method := .post }

/-- A list request by `userW` filtering on `gameId=3`. -/
def reqListW : Request :=
  { authUserId := 1,
    data := { name := none, time := none, game_id := none, gameId := none,
              statusId := none, host := none },
    queryGameId := some 3, method := .post }

/-- A bare POST request by `userW` (signup). -/
def reqPostW : Request :=
  { authUserId := 1,
    data := { name := none, time := none, game_id := none, gameId := none,
              statusId := none, host := none },
    queryGameId := none, method := .post }

/-- A bare DELETE request by `userW` (leave). -/
def reqDeleteW : Request := { reqPostW with method := .delete }

/-
Helper lemmas.
-/

/-- A filter that returns a singleton returns an element satisfying the
predicate. -/
theorem filter_eq_singleton_sat {α : Type} {p : α → Bool} {l : List α} {a : α}
    (h : l.filter p = [a]) : p a = true := by
  have ha : a ∈ l.filter p := by rw [h]; exact List.mem_singleton_self a
  exact (List.mem_filter.mp ha).2

/-- Lookup `objectsGet` succeeds exactly on a singleton row set. -/
theorem objectsGet_ok_eq {α : Type} {model : String} {rows : List α} {a : α}
    (h : objectsGet model rows = .ok a) : rows = [a] := by
  unfold objectsGet at h
  match rows, h with
  | [r], h => cases h; rfl

/-
C1 and C9/C10 concern `EventView.create`.
-/

/-- Inversion for `create`: a response it returns (rather than an escaping
exception) is either the 400 translation of a save-time `ValidationError`,
or the 201 success with the freshly saved row appended to the store. -/
theorem create_ok_inv {db : DB} {req : Request} {sf : Option String}
    {res : Response} {db' : DB} (h : create db req sf = .ok (res, db')) :
    (∃ r, sf = some r ∧ res = ⟨400, .reason r⟩ ∧ db' = db) ∨
    (sf = none ∧ ∃ nm t gid gamer game st e j,
      req.data.name = some nm ∧ req.data.time = some t ∧
      req.data.game_id = some gid ∧
      db.gamers.filter (fun x => x.user == req.authUserId) = [gamer] ∧
      db.games.filter (fun x => x.id == gid) = [game] ∧
      db.statuses.filter (fun s => s.id == 1) = [st] ∧
      e = { id := freshId db.events, name := nm, time := t, host := gamer.id,
            game := game.id, status := st.id, joined := none } ∧
      db' = { db with events := db.events ++ [e] } ∧
      EventSerializer db' e = .ok j ∧ res = ⟨201, .event j⟩) := by
  unfold create at h
  rcases hn : req.data.name with _ | nm
  · simp only [hn, dataGet] at h
    cases h
  simp only [hn, dataGet] at h
  rcases ht : req.data.time with _ | t
  · simp only [ht, dataGet] at h
    cases h
  simp only [ht, dataGet] at h
  rcases hg : db.gamers.filter (fun x => x.user == req.authUserId)
    with _ | ⟨gamer, gtail⟩
  · simp only [hg, objectsGet] at h
    cases h
  rcases gtail with _ | ⟨g2, grest⟩
  swap
  · simp only [hg, objectsGet] at h
    cases h
  simp only [hg, objectsGet] at h
  rcases hgid : req.data.game_id with _ | gid
  · simp only [hgid, dataGet] at h
    cases h
  simp only [hgid, dataGet] at h
  rcases hgame : db.games.filter (fun x => x.id == gid)
    with _ | ⟨game, gametail⟩
  · simp only [hgame, objectsGet] at h
    cases h
  rcases gametail with _ | ⟨game2, gamerest⟩
  swap
  · simp only [hgame, objectsGet] at h
    cases h
  simp only [hgame, objectsGet] at h
  rcases hst : db.statuses.filter (fun s => s.id == 1)
    with _ | ⟨st, sttail⟩
  · simp only [hst, objectsGet] at h
    cases h
  rcases sttail with _ | ⟨st2, strest⟩
  swap
  · simp only [hst, objectsGet] at h
    cases h
  simp only [hst, objectsGet] at h
  rcases sf with _ | r
  swap
  · injection h with h1
    injection h1 with h2 h3
    subst h2
    subst h3
    exact .inl ⟨r, rfl, rfl, rfl⟩
  dsimp only at h
  split at h
  · cases h
  · rename_i j hj
    injection h with h1
    injection h1 with h2 h3
    subst h2
    subst h3
    exact .inr ⟨rfl, nm, t, gid, gamer, game, st, _, j, rfl, rfl, rfl, hg,
      hgame, hst, rfl, rfl, hj, rfl⟩

/-- C1: a create request with valid `name`, `time` and `game_id` persists an
Event whose status has pk 1 and whose host is the Gamer of the
authenticated requesting user — and any `host` field in the request body is
ignored entirely. -/
theorem create_status1_host_auth :
    (∀ db req sf h,
      create db { req with data := { req.data with host := h } } sf
        = create db req sf) ∧
    (∀ db req sf res db', create db req sf = .ok (res, db') →
      res.status = 201 →
      ∃ e, db'.events = db.events ++ [e] ∧ e.status = 1 ∧
        ∃ g, db.gamers.filter (fun x => x.user == req.authUserId) = [g] ∧
          e.host = g.id) := by
  constructor
  · intro db req sf h
    rfl
  · intro db req sf res db' h hs
    rcases create_ok_inv h with ⟨r, _, hres, _⟩ | ⟨_, nm, t, gid, gamer, game,
      st, e, j, _, _, _, hg, _, hst, he, hdb, _, _⟩
    · rw [hres] at hs
      cases hs
    · refine ⟨e, by rw [hdb], ?_, gamer, hg, by rw [he]⟩
      rw [he]
      simpa using filter_eq_singleton_sat hst

/-- C1 witness: on the fixture store, the create request (which carries an
extraneous `host` field) persists an event with status pk 1 hosted by the
requester's gamer. -/
theorem create_status1_host_auth_witness :
    ∃ e, ((create dbW reqCreateW none).toOption.get rfl).2.events
          = dbW.events ++ [e] ∧ e.status = 1 ∧
      ∃ g, dbW.gamers.filter (fun x => x.user == reqCreateW.authUserId) = [g] ∧
        e.host = g.id :=
  create_status1_host_auth.2 dbW reqCreateW none
    ((create dbW reqCreateW none).toOption.get rfl).1
    ((create dbW reqCreateW none).toOption.get rfl).2 rfl rfl

/-- C9: with the pre-save lookups succeeding, a successful save returns the
serialized event with HTTP 201, and a `ValidationError` raised by the save
returns HTTP 400 with the failure reason, the store unchanged. -/
theorem create_201_or_400 :
    (∀ db req res db', create db req none = .ok (res, db') →
      ∃ e j, db'.events = db.events ++ [e] ∧ EventSerializer db' e = .ok j ∧
        res = ⟨201, .event j⟩) ∧
    (∀ db req r nm t gid gamer game st,
      req.data.name = some nm → req.data.time = some t →
      req.data.game_id = some gid →
      db.gamers.filter (fun x => x.user == req.authUserId) = [gamer] →
      db.games.filter (fun x => x.id == gid) = [game] →
      db.statuses.filter (fun s => s.id == 1) = [st] →
      create db req (some r) = .ok (⟨400, .reason r⟩, db)) := by
  constructor
  · intro db req res db' h
    rcases create_ok_inv h with ⟨r, hsf, _, _⟩ | ⟨_, nm, t, gid, gamer, game,
      st, e, j, _, _, _, _, _, _, _, hdb, hser, hres⟩
    · cases hsf
    · exact ⟨e, j, by rw [hdb], hser, hres⟩
  · intro db req r nm t gid gamer game st hn ht hgid hg hgame hst
    simp only [create, hn, ht, hgid, hg, hgame, hst, dataGet, objectsGet]

/-- C9 witness: on the fixture store, the create request yields 201 with the
serialized saved event; with the save raising `ValidationError("boom")` it
yields 400 `{"reason": "boom"}`. -/
theorem create_201_or_400_witness :
    (∃ e j, ((create dbW reqCreateW none).toOption.get rfl).2.events
        = dbW.events ++ [e] ∧
      EventSerializer ((create dbW reqCreateW none).toOption.get rfl).2 e
        = .ok j ∧
      ((create dbW reqCreateW none).toOption.get rfl).1 = ⟨201, .event j⟩) ∧
    create dbW reqCreateW (some "boom") = .ok (⟨400, .reason "boom"⟩, dbW) :=
  ⟨create_201_or_400.1 dbW reqCreateW
      ((create dbW reqCreateW none).toOption.get rfl).1
      ((create dbW reqCreateW none).toOption.get rfl).2 rfl,
   create_201_or_400.2 dbW reqCreateW "boom" "Trivia Night" "19:00" 3
      gamerW gameW statusW rfl rfl rfl rfl rfl rfl⟩

/-- C10: only the save step is guarded by the 400-translating handler; when
no Game row matches `game_id` (or no Status row has pk 1), the lookup's
`DoesNotExist` escapes `create` unhandled instead of becoming an HTTP 400. -/
theorem create_unguarded_lookups :
    (∀ db req sf nm t gid gamer,
      req.data.name = some nm → req.data.time = some t →
      req.data.game_id = some gid →
      db.gamers.filter (fun x => x.user == req.authUserId) = [gamer] →
      db.games.filter (fun x => x.id == gid) = [] →
      create db req sf = .error (.doesNotExist "Game")) ∧
    (∀ db req sf nm t gid gamer game,
      req.data.name = some nm → req.data.time = some t →
      req.data.game_id = some gid →
      db.gamers.filter (fun x => x.user == req.authUserId) = [gamer] →
      db.games.filter (fun x => x.id == gid) = [game] →
      db.statuses.filter (fun s => s.id == 1) = [] →
      create db req sf = .error (.doesNotExist "Status")) := by
  constructor
  · intro db req sf nm t gid gamer hn ht hgid hg hgame
    simp only [create, hn, ht, hgid, hg, hgame, dataGet, objectsGet]
  · intro db req sf nm t gid gamer game hn ht hgid hg hgame hst
    simp only [create, hn, ht, hgid, hg, hgame, hst, dataGet, objectsGet]

/-- Fixture store lacking the requested Game row. -/
def dbNoGame : DB := { dbW with games := [] }

/-- Fixture store lacking the Status row with pk 1. -/
def dbNoStatus : DB := { dbW with statuses := [] }

/-- C10 witness: on stores missing the Game row (resp. the Status pk-1 row),
the create request escapes with the uncaught `DoesNotExist` exception. -/
theorem create_unguarded_lookups_witness :
    create dbNoGame reqCreateW none = .error (.doesNotExist "Game") ∧
    create dbNoStatus reqCreateW none = .error (.doesNotExist "Status") :=
  ⟨create_unguarded_lookups.1 dbNoGame reqCreateW none "Trivia Night" "19:00"
      3 gamerW rfl rfl rfl rfl rfl,
   create_unguarded_lookups.2 dbNoStatus reqCreateW none "Trivia Night"
      "19:00" 3 gamerW gameW rfl rfl rfl rfl rfl rfl⟩

/-
C2 concerns `EventView.update`.  Its docstring promises an empty body with
a 204 status code, but the local assignment
`status = Status.objects.get(pk=request.data["statusId"])` shadows the
imported `rest_framework.status` module, so the returned
`status.HTTP_204_NO_CONTENT` is an attribute access on a `Status` model row
and raises `AttributeError` — `update` can never return a response.
-/

/-- C2 (code bug): on a well-formed update request whose payload rows all
exist, `update` raises `AttributeError` on `HTTP_204_NO_CONTENT` instead of
returning the documented 204; indeed no input at all makes `update` return
a response. -/
theorem update_shadowed_status :
    update dbW reqUpdateW 5 none
      = .error (.attributeError "HTTP_204_NO_CONTENT") ∧
    ∀ db req pk sf, ∃ ex, update db req pk sf = .error ex := by
  constructor
  · rfl
  · intro db req pk sf
    unfold update
    rcases hE : db.events.filter (fun e => e.id == pk) with _ | ⟨event, etail⟩
    · simp only [hE, objectsGet]
      exact ⟨_, rfl⟩
    rcases etail with _ | ⟨e2, erest⟩
    swap
    · simp only [hE, objectsGet]
      exact ⟨_, rfl⟩
    simp only [hE, objectsGet]
    rcases hn : req.data.name with _ | nm
    · simp only [hn, dataGet]
      exact ⟨_, rfl⟩
    simp only [hn, dataGet]
    rcases ht : req.data.time with _ | t
    · simp only [ht, dataGet]
      exact ⟨_, rfl⟩
    simp only [ht, dataGet]
    rcases hg : db.gamers.filter (fun x => x.user == req.authUserId)
      with _ | ⟨gamer, gtail⟩
    · simp only [hg, objectsGet]
      exact ⟨_, rfl⟩
    rcases gtail with _ | ⟨g2, grest⟩
    swap
    · simp only [hg, objectsGet]
      exact ⟨_, rfl⟩
    simp only [hg, objectsGet]
    rcases hgid : req.data.gameId with _ | gid
    · simp only [hgid, dataGet]
      exact ⟨_, rfl⟩
    simp only [hgid, dataGet]
    rcases hgame : db.games.filter (fun x => x.id == gid)
      with _ | ⟨game, gametail⟩
    · simp only [hgame, objectsGet]
      exact ⟨_, rfl⟩
    rcases gametail with _ | ⟨game2, gamerest⟩
    swap
    · simp only [hgame, objectsGet]
      exact ⟨_, rfl⟩
    simp only [hgame, objectsGet]
    rcases hsid : req.data.statusId with _ | sid
    · simp only [hsid, dataGet]
      exact ⟨_, rfl⟩
    simp only [hsid, dataGet]
    rcases hstat : db.statuses.filter (fun s => s.id == sid)
      with _ | ⟨st, sttail⟩
    · simp only [hstat, objectsGet]
      exact ⟨_, rfl⟩
    rcases sttail with _ | ⟨st2, strest⟩
    swap
    · simp only [hstat, objectsGet]
      exact ⟨_, rfl⟩
    simp only [hstat, objectsGet]
    rcases sf with _ | r
    swap
    · exact ⟨_, rfl⟩
    exact ⟨.attributeError "HTTP_204_NO_CONTENT", rfl⟩

/-
C7 and C8 concern `EventView.destroy` and `EventView.retrieve`.
-/

/-- C7: destroy deletes the pk-matching event and returns 204; a missing pk
gives 404 with a message field; any other failure gives 500 with a message
field (the store untouched in both failure cases). -/
theorem destroy_spec :
    (∀ db pk e, db.events.filter (fun x => x.id == pk) = [e] →
      ∃ db', destroy db pk none = (⟨204, .emptyObj⟩, db') ∧ e ∉ db'.events) ∧
    (∀ db pk, db.events.filter (fun x => x.id == pk) = [] →
      ∃ m, destroy db pk none = (⟨404, .message m⟩, db)) ∧
    (∀ db pk e msg, db.events.filter (fun x => x.id == pk) = [e] →
      ∃ m, destroy db pk (some msg) = (⟨500, .message m⟩, db)) := by
  refine ⟨?_, ?_, ?_⟩
  · intro db pk e he
    refine ⟨{ db with events := db.events.filter (fun x => !(x.id == e.id)) },
      ?_, ?_⟩
    · simp only [destroy, destroyBody, he, objectsGet]
    · intro hmem
      rw [List.mem_filter] at hmem
      simp at hmem
  · intro db pk he
    exact ⟨exnStr (.doesNotExist "Event"),
      by simp only [destroy, destroyBody, he, objectsGet]⟩
  · intro db pk e msg he
    exact ⟨exnStr (.opError msg),
      by simp only [destroy, destroyBody, he, objectsGet]⟩

/-- C7 witness: on the fixture store, deleting event 5 returns 204 and
removes the row; deleting the absent pk 99 returns 404 with a message; a
failing delete of event 5 returns 500 with a message. -/
theorem destroy_spec_witness :
    (∃ db', destroy dbW 5 none = (⟨204, .emptyObj⟩, db') ∧
      eventW ∉ db'.events) ∧
    (∃ m, destroy dbW 99 none = (⟨404, .message m⟩, dbW)) ∧
    (∃ m, destroy dbW 5 (some "boom") = (⟨500, .message m⟩, dbW)) :=
  ⟨destroy_spec.1 dbW 5 eventW rfl, destroy_spec.2.1 dbW 99 rfl,
   destroy_spec.2.2 dbW 5 eventW "boom" rfl⟩

/-- The serialized fixture event, as `EventSerializer` renders it outside
`list` (no `joined` assigned). -/
def eventJsonW : EventJson :=
  { id := 5,
    game := { id := 3, name := "Chess", player_limit := 2, created_by := 7,
              gametype := 1 },
    host := { user := { first_name := "Ann", last_name := "Lee",
                        email := "ann@example.com" } },
    name := "Trivia Night", time := "19:00",
    status := { id := 1, title := "Open for signing up" },
    joined := none }

/-- C8: retrieve returns the serialized event on a successful lookup, and
surfaces every lookup exception — not-found and multiple-rows alike — as a
generic 500 server error; its status code is always 200 or 500, never 404. -/
theorem retrieve_spec :
    (∀ db pk e j, db.events.filter (fun x => x.id == pk) = [e] →
      EventSerializer db e = .ok j → retrieve db pk = ⟨200, .event j⟩) ∧
    (∀ db pk, db.events.filter (fun x => x.id == pk) = [] →
      ∃ s, retrieve db pk = ⟨500, .errorText s⟩) ∧
    (∀ db pk e e2 rest,
      db.events.filter (fun x => x.id == pk) = e :: e2 :: rest →
      ∃ s, retrieve db pk = ⟨500, .errorText s⟩) ∧
    (∀ db pk, (retrieve db pk).status = 200 ∨ (retrieve db pk).status = 500) := by
  refine ⟨?_, ?_, ?_, ?_⟩
  · intro db pk e j he hj
    simp only [retrieve, retrieveBody, he, objectsGet, hj]
  · intro db pk he
    exact ⟨exnStr (.doesNotExist "Event"),
      by simp only [retrieve, retrieveBody, he, objectsGet]⟩
  · intro db pk e e2 rest he
    exact ⟨exnStr (.multipleObjectsReturned "Event"),
      by simp only [retrieve, retrieveBody, he, objectsGet]⟩
  · intro db pk
    unfold retrieve
    rcases hb : retrieveBody db pk with ex | j
    · exact .inr rfl
    · exact .inl rfl

/-- Fixture store whose events table duplicates pk 5, making the pk lookup
return more than one row. -/
def dbDup : DB := { dbW with events := [eventW, eventW] }

/-- C8 witness: on the fixture store, retrieving pk 5 returns 200 with the
serialized event; pk 99 (absent) and a duplicated pk 5 both return 500. -/
theorem retrieve_spec_witness :
    retrieve dbW 5 = ⟨200, .event eventJsonW⟩ ∧
    (∃ s, retrieve dbW 99 = ⟨500, .errorText s⟩) ∧
    (∃ s, retrieve dbDup 5 = ⟨500, .errorText s⟩) ∧
    ((retrieve dbW 5).status = 200 ∨ (retrieve dbW 5).status = 500) :=
  ⟨retrieve_spec.1 dbW 5 eventW eventJsonW rfl rfl,
   retrieve_spec.2.1 dbW 99 rfl,
   retrieve_spec.2.2.1 dbDup 5 eventW eventW [] rfl,
   retrieve_spec.2.2.2 dbW 5⟩

/-
C5 and C6 concern the `signup` custom action.
-/

/-- Adding a signup makes the pair a member of the join table. -/
theorem mem_addSignup (s : List (Nat × Nat)) (e g : Nat) :
    (e, g) ∈ addSignup s e g := by
  unfold addSignup
  split
  · assumption
  · simp

/-- C5: signup on a missing pk returns 400 `{"message": "Event does not
exist."}`; on an existing event, POST adds the authenticated gamer to the
sign-up set and returns 201 with empty body, DELETE removes the gamer and
returns 204. -/
theorem signup_spec :
    (∀ db req pk mf gamer,
      db.gamers.filter (fun x => x.user == req.authUserId) = [gamer] →
      db.events.filter (fun x => x.id == pk) = [] →
      signup db req pk mf
        = .ok (⟨400, .message "Event does not exist."⟩, db)) ∧
    (∀ db req pk gamer event, req.method = .post →
      db.gamers.filter (fun x => x.user == req.authUserId) = [gamer] →
      db.events.filter (fun x => x.id == pk) = [event] →
      ∃ db', signup db req pk none = .ok (⟨201, .emptyObj⟩, db') ∧
        (event.id, gamer.id) ∈ db'.signups ∧ db'.events = db.events) ∧
    (∀ db req pk gamer event, req.method = .delete →
      db.gamers.filter (fun x => x.user == req.authUserId) = [gamer] →
      db.events.filter (fun x => x.id == pk) = [event] →
      ∃ db', signup db req pk none = .ok (⟨204, .noBody⟩, db') ∧
        (event.id, gamer.id) ∉ db'.signups ∧ db'.events = db.events) := by
  refine ⟨?_, ?_, ?_⟩
  · intro db req pk mf gamer hg he
    simp only [signup, hg, he, objectsGet]
  · intro db req pk gamer event hm hg he
    refine ⟨{ db with signups := addSignup db.signups event.id gamer.id },
      ?_, mem_addSignup db.signups event.id gamer.id, rfl⟩
    simp only [signup, hg, he, objectsGet, hm]
  · intro db req pk gamer event hm hg he
    refine ⟨{ db with
        signups := db.signups.filter (fun p => !(p == (event.id, gamer.id))) },
      ?_, ?_, rfl⟩
    · simp only [signup, hg, he, objectsGet, hm]
    · intro hmem
      rw [List.mem_filter] at hmem
      simp at hmem

/-- C5 witness: on the fixture store, POSTing signup for the absent pk 99
returns the 400 message; POSTing for event 5 returns 201 and signs gamer 7
up; DELETEing for event 5 returns 204 with gamer 7 not signed up. -/
theorem signup_spec_witness :
    (signup dbW reqPostW 99 none
      = .ok (⟨400, .message "Event does not exist."⟩, dbW)) ∧
    (∃ db', signup dbW reqPostW 5 none = .ok (⟨201, .emptyObj⟩, db') ∧
      (eventW.id, gamerW.id) ∈ db'.signups ∧ db'.events = dbW.events) ∧
    (∃ db', signup dbW reqDeleteW 5 none = .ok (⟨204, .noBody⟩, db') ∧
      (eventW.id, gamerW.id) ∉ db'.signups ∧ db'.events = dbW.events) :=
  ⟨signup_spec.1 dbW reqPostW 99 none gamerW rfl rfl,
   signup_spec.2.1 dbW reqPostW 5 gamerW eventW rfl rfl rfl,
   signup_spec.2.2 dbW reqDeleteW 5 gamerW eventW rfl rfl rfl⟩

/-- C6: on an existing event, a failure raised by the many-to-many
add/remove is returned as a response whose status is 200 and whose body is
`{'message': <the error's description>}`, for either method. -/
theorem signup_failure_200 :
    ∀ db req pk msg gamer event,
      db.gamers.filter (fun x => x.user == req.authUserId) = [gamer] →
      db.events.filter (fun x => x.id == pk) = [event] →
      signup db req pk (some msg) = .ok (⟨200, .message msg⟩, db) := by
  intro db req pk msg gamer event hg he
  cases hm : req.method <;> simp only [signup, hg, he, objectsGet, hm]

/-- C6 witness: on the fixture store, a signup for event 5 whose add raises
`Exception("boom")` returns status 200 with the message body. -/
theorem signup_failure_200_witness :
    signup dbW reqPostW 5 (some "boom")
      = .ok (⟨200, .message "boom"⟩, dbW) :=
  signup_failure_200 dbW reqPostW 5 "boom" gamerW eventW rfl rfl

/-
C3 and C4 concern `EventView.list`.  The handler's comment says it sets
the `joined` property on every event, and the spec promises `joined` in
every list response; but the `gameId` branch rebinds `events` to
`events.filter(game__id=game)`, whose evaluation re-fetches fresh rows
without the annotations, so filtered responses are serialized with
`joined` unassigned.
-/

/-- Fixture store in which gamer 7 is signed up for event 5. -/
def dbSignW : DB := { dbW with signups := [(5, 7)] }

/-- C3 (code bug): a `gameId=3` list request returns exactly the serialized
events of game 3, but the filter's queryset re-fetch discards the `joined`
annotations, so the filtered response renders `joined` unassigned — while
the unfiltered request on the same store (gamer 7 signed up for event 5)
renders `joined = true` for the same event. -/
theorem list_filter_drops_joined :
    list dbSignW reqListW = .ok ⟨200, .events [eventJsonW]⟩ ∧
    eventJsonW.joined = none ∧
    list dbSignW { reqListW with queryGameId := none }
      = .ok ⟨200, .events [{ eventJsonW with joined := some true }]⟩ :=
  ⟨rfl, rfl, rfl⟩

/-- C4 (code bug): gamer 7 is in event 5's sign-up set, yet the
`gameId`-filtered list response renders that event's `joined` as unassigned
rather than true — the queryset re-fetch dropped the annotation — so the
rendered `joined` does not equal sign-up membership on filtered responses. -/
theorem list_filtered_joined_not_membership :
    (eventW.id, gamerW.id) ∈ dbSignW.signups ∧
    list dbSignW reqListW = .ok ⟨200, .events [eventJsonW]⟩ ∧
    eventJsonW.id = eventW.id ∧ eventJsonW.joined = none :=
  ⟨by decide, rfl, rfl, rfl⟩

end LevelUp
